import Mathlib

/-!
Shallow embedding of the quota-and-cache gate of the `indices-viewer`
repository.

Modelled source files:
* `src/app/api/_lib/rateLimiter.ts` — in-memory rate limiter
  (module-level variables become an explicit `RateLimiterState`).
* `src/app/api/_lib/rateLimiterKV.ts` — KV-backed rate limiter
  (the KV main path becomes a pure function of the two fetched values;
  the in-memory fallback path becomes a function on `FallbackState`).
* `src/app/api/indices/route.ts` — parameterless route with a singleton
  60-second cache.
* `src/app/api/indices-performance/route.ts` — parameterized route with a
  keyed 60-second cache.

Conventions: timestamps are `Int` milliseconds (`Date.now()`), counters are
`Nat`.  JavaScript `Math.floor` on a quotient of integers is `Int.fdiv`,
`Math.ceil` is `jsCeilDiv`.  Header values are kept as numbers; the source
stringifies them with `String(...)`, which is injective and carries no
logic.  JSON payloads are abstracted as `JsData`: `null` plus opaque values
tagged with their JavaScript truthiness.
-/

/-- `MAX_PER_MINUTE` from `rateLimiter.ts` / `rateLimiterKV.ts`. -/
def MAX_PER_MINUTE : Nat := 20

/-- `MAX_PER_MONTH` from `rateLimiter.ts` / `rateLimiterKV.ts`. -/
def MAX_PER_MONTH : Nat := 500

/-- `MINUTE_WINDOW_MS` from `rateLimiter.ts` / `rateLimiterKV.ts`. -/
def MINUTE_WINDOW_MS : Int := 60000

/-- JavaScript `Math.ceil(a / b)` for integer `a` and positive integer `b`. -/
def jsCeilDiv (a b : Int) : Int := -(Int.fdiv (-a) b)

/-- An opaque JSON value: `null`, or a non-null value carrying its
JavaScript truthiness and an identity tag. -/
inductive JsData where
  | null : JsData
  | value : Bool → Nat → JsData
deriving Repr, DecidableEq, Inhabited

/-- JavaScript `ToBoolean` of a `JsData` payload. -/
def JsData.toBool : JsData → Bool
  | .null => false
  | .value t _ => t

/-- The six `x-ratelimit-*` headers, as numbers (the source stringifies
them with `String(...)`). -/
structure QuotaHeaders where
  limitMinute : Int
  remainingMinute : Int
  resetMinute : Int
  limitMonth : Int
  remainingMonth : Int
  resetMonth : Int
deriving Repr, DecidableEq, Inhabited

/-- The `reason` field of a denied `RateLimitResult`. -/
inductive DenyReason where
  | minute : DenyReason
  | month : DenyReason
deriving Repr, DecidableEq, Inhabited

/-- The `RateLimitResult` union type of both limiter modules. -/
inductive RateLimitResult where
  | allowed : QuotaHeaders → Int → Int → RateLimitResult
  | denied : QuotaHeaders → DenyReason → Option Int → RateLimitResult
deriving Repr, DecidableEq, Inhabited

/-- `allowed` discriminant of a `RateLimitResult`. -/
def RateLimitResult.isAllowed : RateLimitResult → Bool
  | .allowed _ _ _ => true
  | .denied _ _ _ => false

/-- The `headers` field, common to both variants. -/
def RateLimitResult.headers : RateLimitResult → QuotaHeaders
  | .allowed h _ _ => h
  | .denied h _ _ => h

/-- The `reason` field (`none` on the allowed variant). -/
def RateLimitResult.reasonOf : RateLimitResult → Option DenyReason
  | .allowed _ _ _ => none
  | .denied _ r _ => some r

/-- The `retryAfterSeconds` field (`none` on the allowed variant). -/
def RateLimitResult.retrySeconds : RateLimitResult → Option Int
  | .allowed _ _ _ => none
  | .denied _ _ r => r

/-- Civil date from a day count relative to 1970-01-01 (the arithmetic
behind JavaScript `Date` UTC accessors): year, 1-based month, day. -/
def civilFromDays (z0 : Int) : Int × Nat × Nat :=
  let z := z0 + 719468
  let era : Int := z.fdiv 146097
  let doe : Nat := (z - era * 146097).toNat
  let yoe : Nat := (doe - doe / 1460 + doe / 36524 - doe / 146096) / 365
  let y : Int := (yoe : Int) + era * 400
  let doy : Nat := doe - (365 * yoe + yoe / 4 - yoe / 100)
  let mp : Nat := (5 * doy + 2) / 153
  let d : Nat := doy - (153 * mp + 2) / 5 + 1
  let m : Nat := if mp < 10 then mp + 3 else mp - 9
  (if m ≤ 2 then y + 1 else y, m, d)

/-- Day count relative to 1970-01-01 from a civil date (year, 1-based
month, day); the arithmetic behind JavaScript `Date.UTC`. -/
def daysFromCivil (y0 : Int) (m d : Nat) : Int :=
  let y := if m ≤ 2 then y0 - 1 else y0
  let era : Int := y.fdiv 400
  let yoe : Nat := (y - era * 400).toNat
  let doy : Nat := (153 * (if m > 2 then m - 3 else m + 9) + 2) / 5 + d - 1
  let doe : Nat := yoe * 365 + yoe / 4 - yoe / 100 + doy
  era * 146097 + (doe : Int) - 719468

/-- `d.getUTCFullYear()` and `d.getUTCMonth()` (zero-based month) of a
millisecond timestamp. -/
def getUTCYearMonth (ms : Int) : Int × Nat :=
  let c := civilFromDays (ms.fdiv 86400000)
  (c.1, c.2.1 - 1)

/-- `getMonthKey` from `rateLimiter.ts`: the template string
`${d.getUTCFullYear()}-${d.getUTCMonth()}`. -/
def getMonthKey (now : Int) : String :=
  let p := getUTCYearMonth now
  toString p.1 ++ "-" ++ toString p.2

/-- `nextMonthResetEpochSeconds` from `rateLimiter.ts`:
`Math.floor(Date.UTC(y, m + 1, 1) / 1000)` (JavaScript normalizes a month
index of 12 to January of the next year). -/
def nextMonthResetEpochSeconds (now : Int) : Int :=
  let p := getUTCYearMonth now
  let q : Int × Nat := if p.2 + 1 ≥ 12 then (p.1 + 1, 0) else (p.1, p.2 + 1)
  (daysFromCivil q.1 (q.2 + 1) 1 * 86400000).fdiv 1000

/-- The module-level mutable state of `rateLimiter.ts`:
`minuteWindowStart`, `minuteCount`, `monthKey`, `monthCount`. -/
structure RateLimiterState where
  minuteWindowStart : Int
  minuteCount : Nat
  monthKey : String
  monthCount : Nat
deriving Repr, DecidableEq, Inhabited

/-- The initial values of the module-level variables of `rateLimiter.ts`. -/
def initialRateLimiterState : RateLimiterState :=
  { minuteWindowStart := 0, minuteCount := 0, monthKey := "", monthCount := 0 }

/-- `ensureMinuteWindow` from `rateLimiter.ts`. -/
def ensureMinuteWindow (now : Int) (s : RateLimiterState) : RateLimiterState :=
  if s.minuteWindowStart = 0 ∨ now - s.minuteWindowStart ≥ MINUTE_WINDOW_MS then
    { s with minuteWindowStart := now, minuteCount := 0 }
  else s

/-- `ensureMonthWindow` from `rateLimiter.ts`. -/
def ensureMonthWindow (now : Int) (s : RateLimiterState) : RateLimiterState :=
  if s.monthKey ≠ getMonthKey now then
    { s with monthKey := getMonthKey now, monthCount := 0 }
  else s

/-- `minuteResetEpochSeconds` from `rateLimiter.ts`. -/
def minuteResetEpochSeconds (minuteWindowStart : Int) : Int :=
  (minuteWindowStart + MINUTE_WINDOW_MS).fdiv 1000

/-- `buildHeaders` from `rateLimiter.ts`. -/
def buildHeaders (now minuteWindowStart : Int)
    (currentMinuteCount currentMonthCount : Nat) : QuotaHeaders :=
  { limitMinute := (MAX_PER_MINUTE : Int)
    remainingMinute := max 0 ((MAX_PER_MINUTE : Int) - currentMinuteCount)
    resetMinute := minuteResetEpochSeconds minuteWindowStart
    limitMonth := (MAX_PER_MONTH : Int)
    remainingMonth := max 0 ((MAX_PER_MONTH : Int) - currentMonthCount)
    resetMonth := nextMonthResetEpochSeconds now }

/-- `consumeRateLimit` from `rateLimiter.ts`; the ambient `Date.now()` and
the module-level variables become explicit arguments and results. -/
def consumeRateLimit (now : Int) (s0 : RateLimiterState) :
    RateLimitResult × RateLimiterState :=
  let s := ensureMonthWindow now (ensureMinuteWindow now s0)
  if s.minuteCount ≥ MAX_PER_MINUTE then
    let headers := buildHeaders now s.minuteWindowStart s.minuteCount s.monthCount
    let retryAfterSeconds :=
      max 1 (minuteResetEpochSeconds s.minuteWindowStart - now.fdiv 1000)
    (.denied headers .minute (some retryAfterSeconds), s)
  else if s.monthCount ≥ MAX_PER_MONTH then
    (.denied (buildHeaders now s.minuteWindowStart s.minuteCount s.monthCount)
      .month none, s)
  else
    let s2 : RateLimiterState :=
      { s with minuteCount := s.minuteCount + 1, monthCount := s.monthCount + 1 }
    (.allowed (buildHeaders now s2.minuteWindowStart s2.minuteCount s2.monthCount)
      (max 0 ((MAX_PER_MINUTE : Int) - s2.minuteCount))
      (max 0 ((MAX_PER_MONTH : Int) - s2.monthCount)), s2)

/-- `rateLimitSnapshotHeaders` from `rateLimiter.ts`; it runs both
`ensure*` resolution steps against the module state and then builds
headers without incrementing. -/
def rateLimitSnapshotHeaders (now : Int) (s0 : RateLimiterState) :
    QuotaHeaders × RateLimiterState :=
  let s := ensureMonthWindow now (ensureMinuteWindow now s0)
  (buildHeaders now s.minuteWindowStart s.minuteCount s.monthCount, s)

/-- A sequence of `consumeRateLimit` calls at the given timestamps,
threading the module state. -/
def consumeSeq : List Int → RateLimiterState →
    List RateLimitResult × RateLimiterState
  | [], s => ([], s)
  | t :: ts, s =>
    let p := consumeRateLimit t s
    let q := consumeSeq ts p.2
    (p.1 :: q.1, q.2)

/-- The result of the `fetch` to the upstream API: HTTP status and JSON
body.  `res.ok` is derived from the status as in the Fetch standard. -/
structure UpstreamResponse where
  status : Nat
  data : JsData
deriving Repr, DecidableEq, Inhabited

/-- `res.ok`: status in the inclusive range 200–299. -/
def UpstreamResponse.ok (u : UpstreamResponse) : Bool :=
  decide (200 ≤ u.status ∧ u.status < 300)

/-- The JSON body of a route response: an upstream payload, or the
`{ success: false, message }` envelope. -/
inductive RouteBody where
  | payload : JsData → RouteBody
  | message : String → RouteBody
deriving Repr, DecidableEq, Inhabited

/-- A route handler response: HTTP status, body, the quota headers when
attached, and the `retry-after` header when set. -/
structure RouteResult where
  status : Nat
  body : RouteBody
  headers : Option QuotaHeaders
  retryAfter : Option Int
deriving Repr, DecidableEq, Inhabited

/-- The 429 body message of both routes, per `quota.reason`. -/
def denyMessage : DenyReason → String
  | .minute => "Minute rate limit reached (20 req/min). Please wait before refreshing again."
  | .month => "Monthly quota reached (500 calls/mo)."

/-- The `if (quota.retryAfterSeconds)` truthiness guard of both routes: a
present, nonzero number sets the `retry-after` header. -/
def jsTruthyRetry : Option Int → Option Int
  | some v => if v = 0 then none else some v
  | none => none

/-- The module-level `CACHE` of `indices/route.ts`: a single slot
`{ data, ts }` starting as `{ data: null, ts: 0 }`. -/
structure IndicesCache where
  data : JsData
  ts : Int
deriving Repr, DecidableEq, Inhabited

/-- The initial `CACHE` value of `indices/route.ts`. -/
def initialIndicesCache : IndicesCache := { data := JsData.null, ts := 0 }

/-- The cache-hit guard of `indices/route.ts`:
`CACHE.data && now - CACHE.ts < HOT_CACHE_TTL_MS`, returning `CACHE.data`
on a hit.  Note the guard tests the truthiness of the stored payload, not
of the slot. -/
def hotCacheRead (c : IndicesCache) (now : Int) : Option JsData :=
  if c.data.toBool = true ∧ now - c.ts < 60000 then some c.data else none

/-- The cache write of `indices/route.ts`:
`CACHE.data = data; CACHE.ts = Date.now()`. -/
def hotCachePut (d : JsData) (now : Int) : IndicesCache :=
  { data := d, ts := now }

/-- The module-level `CACHE` map of `indices-performance/route.ts`,
modelled as a function from keys to optional entries. -/
def PerfCache : Type := String → Option (JsData × Int)

/-- The initial (empty) keyed cache. -/
def emptyPerfCache : PerfCache := fun _ => none

/-- `CACHE.set(key, { data, ts })` of `indices-performance/route.ts`. -/
def perfCachePut (pc : PerfCache) (k : String) (d : JsData) (now : Int) :
    PerfCache :=
  fun k2 => if k2 = k then some (d, now) else pc k2

/-- The cache-hit guard of `indices-performance/route.ts`:
`cached && Date.now() - cached.ts < HOT_CACHE_TTL_MS`, returning
`cached.data` on a hit.  A `Map` entry is an object, hence truthy exactly
when present — its `data` may be any value, including `null`. -/
def perfCacheFresh (pc : PerfCache) (k : String) (now : Int) : Option JsData :=
  match pc k with
  | some e => if now - e.2 < 60000 then some e.1 else none
  | none => none

/-- The composite cache key of `indices-performance/route.ts`:
the template string `id:${id}:limit:${limit}:page:${page}`. -/
def perfKey (id limit page : String) : String :=
  "id:" ++ id ++ ":limit:" ++ limit ++ ":page:" ++ page

/-- `GET` of `indices/route.ts`.  `tq`, `tc`, `tst` are the three
successive `Date.now()` reads (inside `consumeRateLimit`, at the cache
check, and at the cache write); `up` is what the upstream `fetch` would
return for this request; the module state of the limiter and the cache is
threaded explicitly. -/
def indicesGET (tq tc tst : Int) (up : UpstreamResponse)
    (rl : RateLimiterState) (c : IndicesCache) :
    RouteResult × RateLimiterState × IndicesCache :=
  match consumeRateLimit tq rl with
  | (.denied headers reason retryAfterSeconds, rl2) =>
    ({ status := 429, body := .message (denyMessage reason),
       headers := some headers, retryAfter := jsTruthyRetry retryAfterSeconds },
     rl2, c)
  | (.allowed headers _ _, rl2) =>
    match hotCacheRead c tc with
    | some d =>
      ({ status := 200, body := .payload d, headers := some headers,
         retryAfter := none }, rl2, c)
    | none =>
      if up.ok then
        ({ status := 200, body := .payload up.data, headers := some headers,
           retryAfter := none }, rl2, hotCachePut up.data tst)
      else
        ({ status := up.status,
           body := .message ("Upstream error: " ++ toString up.status),
           headers := some headers, retryAfter := none }, rl2, c)

namespace RateLimiterKV

/-- The value stored under `rate:minute` in the KV store
(`rateLimiterKV.ts`): `{ count, windowStart }`. -/
structure MinuteRecord where
  count : Nat
  windowStart : Int
deriving Repr, DecidableEq, Inhabited

/-- The two `kv.set` payloads written on the allow branch of the KV
`consumeRateLimit`. -/
structure KVWrites where
  minuteRecord : MinuteRecord
  monthCount : Nat
deriving Repr, DecidableEq, Inhabited

/-- The KV main path of `consumeRateLimit` from `rateLimiterKV.ts`, as a
pure function of the two values fetched from the store (`minuteData`,
`monthCount`); the writes performed on the allow branch are returned. -/
def consumeRateLimit (now : Int) (minuteData : Option MinuteRecord)
    (monthCount : Option Nat) : RateLimitResult × Option KVWrites :=
  let minuteWindowStart :=
    match minuteData with
    | some d => d.windowStart
    | none => now
  let isMinuteExpired := decide (now - minuteWindowStart ≥ MINUTE_WINDOW_MS)
  let currentMinuteCount : Nat :=
    if isMinuteExpired then 0 else
      match minuteData with
      | some d => d.count
      | none => 0
  let currentMonthCount : Nat := monthCount.getD 0
  let minuteResetSeconds := jsCeilDiv (minuteWindowStart + MINUTE_WINDOW_MS - now) 1000
  let headers : QuotaHeaders :=
    { limitMinute := (MAX_PER_MINUTE : Int)
      remainingMinute := max 0 ((MAX_PER_MINUTE : Int) - currentMinuteCount)
      resetMinute := (minuteWindowStart + MINUTE_WINDOW_MS).fdiv 1000
      limitMonth := (MAX_PER_MONTH : Int)
      remainingMonth := max 0 ((MAX_PER_MONTH : Int) - currentMonthCount)
      resetMonth := nextMonthResetEpochSeconds now }
  if currentMinuteCount ≥ MAX_PER_MINUTE then
    (.denied headers .minute (some (max 1 minuteResetSeconds)), none)
  else if currentMonthCount ≥ MAX_PER_MONTH then
    (.denied headers .month none, none)
  else
    let newMinuteCount : Nat := currentMinuteCount + 1
    let newMonthCount : Nat := currentMonthCount + 1
    let newWindowStart := if isMinuteExpired then now else minuteWindowStart
    (.allowed headers ((MAX_PER_MINUTE : Int) - newMinuteCount)
      ((MAX_PER_MONTH : Int) - newMonthCount),
     some { minuteRecord := { count := newMinuteCount, windowStart := newWindowStart }
            monthCount := newMonthCount })

/-- The module-level fallback variables of `rateLimiterKV.ts`:
`fallbackMinuteStart`, `fallbackMinuteCount`, `fallbackMonthKey`,
`fallbackMonthCount`. -/
structure FallbackState where
  fallbackMinuteStart : Int
  fallbackMinuteCount : Nat
  fallbackMonthKey : String
  fallbackMonthCount : Nat
deriving Repr, DecidableEq, Inhabited

/-- The initial values of the fallback variables of `rateLimiterKV.ts`. -/
def initialFallbackState : FallbackState :=
  { fallbackMinuteStart := 0, fallbackMinuteCount := 0,
    fallbackMonthKey := "", fallbackMonthCount := 0 }

/-- `consumeRateLimitFallback` from `rateLimiterKV.ts` (the in-memory path
taken when no KV store is configured).  Headers are built before the cap
checks, so an allowed result carries the pre-increment remaining counts. -/
def consumeRateLimitFallback (now : Int) (s0 : FallbackState) :
    RateLimitResult × FallbackState :=
  let s1 :=
    if s0.fallbackMonthKey ≠ getMonthKey now then
      { s0 with fallbackMonthKey := getMonthKey now, fallbackMonthCount := 0 }
    else s0
  let s :=
    if s1.fallbackMinuteStart = 0 ∨ now - s1.fallbackMinuteStart ≥ MINUTE_WINDOW_MS then
      { s1 with fallbackMinuteStart := now, fallbackMinuteCount := 0 }
    else s1
  let minuteResetSeconds := (s.fallbackMinuteStart + MINUTE_WINDOW_MS).fdiv 1000
  let headers : QuotaHeaders :=
    { limitMinute := (MAX_PER_MINUTE : Int)
      remainingMinute := max 0 ((MAX_PER_MINUTE : Int) - s.fallbackMinuteCount)
      resetMinute := minuteResetSeconds
      limitMonth := (MAX_PER_MONTH : Int)
      remainingMonth := max 0 ((MAX_PER_MONTH : Int) - s.fallbackMonthCount)
      resetMonth := nextMonthResetEpochSeconds now }
  if s.fallbackMinuteCount ≥ MAX_PER_MINUTE then
    (.denied headers .minute (some (max 1 (minuteResetSeconds - now.fdiv 1000))), s)
  else if s.fallbackMonthCount ≥ MAX_PER_MONTH then
    (.denied headers .month none, s)
  else
    let s2 : FallbackState :=
      { s with fallbackMinuteCount := s.fallbackMinuteCount + 1,
               fallbackMonthCount := s.fallbackMonthCount + 1 }
    (.allowed headers ((MAX_PER_MINUTE : Int) - s2.fallbackMinuteCount)
      ((MAX_PER_MONTH : Int) - s2.fallbackMonthCount), s2)

end RateLimiterKV

/-- `GET` of `indices-performance/route.ts` in the in-memory fallback
configuration (no KV store configured, so `consumeRateLimit` takes the
`consumeRateLimitFallback` path).  `idq`, `limq`, `pgq` are the raw
`searchParams.get` results; times and state as in `indicesGET`. -/
def perfGET (idq limq pgq : Option String) (tq tc tst : Int)
    (up : UpstreamResponse) (kvs : RateLimiterKV.FallbackState)
    (pc : PerfCache) :
    RouteResult × RateLimiterKV.FallbackState × PerfCache :=
  match idq with
  | none =>
    ({ status := 400, body := .message "id required", headers := none,
       retryAfter := none }, kvs, pc)
  | some id =>
    let limit := limq.getD "50"
    let page := pgq.getD "1"
    let key := perfKey id limit page
    match RateLimiterKV.consumeRateLimitFallback tq kvs with
    | (.denied headers reason retryAfterSeconds, kvs2) =>
      ({ status := 429, body := .message (denyMessage reason),
         headers := some headers, retryAfter := jsTruthyRetry retryAfterSeconds },
       kvs2, pc)
    | (.allowed headers _ _, kvs2) =>
      match perfCacheFresh pc key tc with
      | some d =>
        ({ status := 200, body := .payload d, headers := some headers,
           retryAfter := none }, kvs2, pc)
      | none =>
        if up.ok then
          ({ status := 200, body := .payload up.data, headers := some headers,
             retryAfter := none }, kvs2, perfCachePut pc key up.data tst)
        else
          ({ status := up.status,
             body := .message ("Upstream error: " ++ toString up.status),
             headers := some headers, retryAfter := none }, kvs2, pc)

/-- The combined mutable state of all four modules: the two limiter
module states (note they are distinct module-level variables) and the two
route caches. -/
structure GateWorld where
  mem : RateLimiterState
  kv : RateLimiterKV.FallbackState
  hot : IndicesCache
  perf : PerfCache

/-- The fresh-process `GateWorld`. -/
def initialGateWorld : GateWorld :=
  { mem := initialRateLimiterState, kv := RateLimiterKV.initialFallbackState,
    hot := initialIndicesCache, perf := emptyPerfCache }

/-- A request to `/api/indices`, acting on the combined state. -/
def worldIndicesGET (tq tc tst : Int) (up : UpstreamResponse)
    (w : GateWorld) : RouteResult × GateWorld :=
  match indicesGET tq tc tst up w.mem w.hot with
  | (r, rl2, c2) => (r, { w with mem := rl2, hot := c2 })

/-- A request to `/api/indices-performance`, acting on the combined
state. -/
def worldPerfGET (idq limq pgq : Option String) (tq tc tst : Int)
    (up : UpstreamResponse) (w : GateWorld) : RouteResult × GateWorld :=
  match perfGET idq limq pgq tq tc tst up w.kv w.perf with
  | (r, kvs2, pc2) => (r, { w with kv := kvs2, perf := pc2 })

/-- A string contains no `:` separator character. -/
def noColon (s : String) : Prop := Char.ofNat 58 ∉ s.data

/-- `noColon` is decidable, so concrete parameter values can be checked. -/
instance noColonDecidable (s : String) : Decidable (noColon s) :=
  inferInstanceAs (Decidable (Char.ofNat 58 ∉ s.data))

/-!
## Theorems

Helper lemmas first, then one theorem per specification claim (with its
witness or counterexample).
-/

/-- One allowed step of the in-memory limiter: inside a live minute window
with both caps unreached, `consume` allows, reports the post-increment
remaining-minute count, keeps the window start, and increments the minute
counter; the month counter grows by at most one (it can also roll over). -/
theorem consume_step_allowed (now : Int) (s : RateLimiterState)
    (hw : s.minuteWindowStart ≠ 0)
    (h2 : now - s.minuteWindowStart < 60000)
    (hc : s.minuteCount < 20) (hm : s.monthCount < 500) :
    (consumeRateLimit now s).1.isAllowed = true ∧
    (consumeRateLimit now s).1.headers.remainingMinute = 20 - ((s.minuteCount : Int) + 1) ∧
    (consumeRateLimit now s).2.minuteWindowStart = s.minuteWindowStart ∧
    (consumeRateLimit now s).2.minuteCount = s.minuteCount + 1 ∧
    (consumeRateLimit now s).2.monthCount ≤ s.monthCount + 1 := by
  have hmin : ensureMinuteWindow now s = s := by
    unfold ensureMinuteWindow MINUTE_WINDOW_MS
    rw [if_neg]
    rintro (h | h)
    · exact hw h
    · omega
  unfold consumeRateLimit
  rw [hmin]
  unfold ensureMonthWindow
  by_cases hkey : s.monthKey ≠ getMonthKey now
  · rw [if_pos hkey]
    rw [if_neg (by simp [MAX_PER_MINUTE]; omega), if_neg (by simp [MAX_PER_MONTH])]
    refine ⟨rfl, ?_, rfl, rfl, by simp⟩
    simp [RateLimitResult.headers, buildHeaders, MAX_PER_MINUTE]
    omega
  · rw [if_neg hkey]
    rw [if_neg (by simp [MAX_PER_MINUTE]; omega), if_neg (by simp [MAX_PER_MONTH]; omega)]
    refine ⟨rfl, ?_, rfl, rfl, by simp⟩
    simp [RateLimitResult.headers, buildHeaders, MAX_PER_MINUTE]
    omega

/-- The very first `consume` call on the fresh module state: the minute
window is installed at the call time and both counters become 1. -/
theorem consume_initial (t0 : Int) :
    (consumeRateLimit t0 initialRateLimiterState).1.isAllowed = true ∧
    (consumeRateLimit t0 initialRateLimiterState).1.headers.remainingMinute = 19 ∧
    (consumeRateLimit t0 initialRateLimiterState).2.minuteWindowStart = t0 ∧
    (consumeRateLimit t0 initialRateLimiterState).2.minuteCount = 1 ∧
    (consumeRateLimit t0 initialRateLimiterState).2.monthCount = 1 := by
  have hmin : ensureMinuteWindow t0 initialRateLimiterState =
      { initialRateLimiterState with minuteWindowStart := t0, minuteCount := 0 } := by
    unfold ensureMinuteWindow
    rw [if_pos (Or.inl (show initialRateLimiterState.minuteWindowStart = 0 by rfl))]
  unfold consumeRateLimit
  rw [hmin]
  unfold ensureMonthWindow
  by_cases hkey : ({ initialRateLimiterState with minuteWindowStart := t0, minuteCount := 0 } : RateLimiterState).monthKey ≠ getMonthKey t0
  · rw [if_pos hkey]
    rw [if_neg (by simp [MAX_PER_MINUTE]), if_neg (by simp [MAX_PER_MONTH])]
    refine ⟨rfl, ?_, rfl, rfl, rfl⟩
    simp [RateLimitResult.headers, buildHeaders, MAX_PER_MINUTE]
  · rw [if_neg hkey]
    rw [if_neg (by simp [MAX_PER_MINUTE, initialRateLimiterState]), if_neg (by simp [MAX_PER_MONTH, initialRateLimiterState])]
    refine ⟨rfl, ?_, rfl, rfl, by simp [initialRateLimiterState]⟩
    simp [RateLimitResult.headers, buildHeaders, MAX_PER_MINUTE, initialRateLimiterState]

/-- A run of `consume` calls entirely inside a live minute window, with
enough minute and month capacity, allows every call, with remaining-minute
counting down from the starting count. -/
theorem consumeSeq_allowed (ts : List Int) : ∀ (s : RateLimiterState),
    s.minuteWindowStart ≠ 0 →
    (∀ t ∈ ts, t - s.minuteWindowStart < 60000) →
    s.minuteCount + ts.length ≤ 20 →
    s.monthCount + ts.length ≤ 500 →
    ∀ i, i < ts.length →
      ((consumeSeq ts s).1.getD i default).isAllowed = true ∧
      ((consumeSeq ts s).1.getD i default).headers.remainingMinute
        = 20 - ((s.minuteCount : Int) + i + 1) := by
  induction ts with
  | nil => intro s _ _ _ _ i hi; simp at hi
  | cons t ts ih =>
    intro s hw hwin hc hm i hi
    have hst := consume_step_allowed t s hw (hwin t (by simp)) (by simp at hc; omega) (by simp at hm; omega)
    obtain ⟨ha, hr, hws, hmc, hmo⟩ := hst
    match i with
    | 0 =>
      simp only [consumeSeq, List.getD_cons_zero]
      exact ⟨ha, by rw [hr]; push_cast; ring⟩
    | Nat.succ j =>
      simp only [consumeSeq, List.getD_cons_succ]
      have := ih (consumeRateLimit t s).2
        (by rw [hws]; exact hw)
        (by intro u hu; rw [hws]; exact hwin u (by simp [hu]))
        (by rw [hmc]; simp at hc; omega)
        (by simp at hm; omega)
        j (by simpa using hi)
      refine ⟨this.1, ?_⟩
      rw [this.2, hmc]
      push_cast
      ring

/-- C1: from the fresh counter state (minuteMax = 20, month capacity
remaining), at most 20 `consume()` calls whose timestamps all lie within
one rolling minute window starting at the (positive) first call time are
all allowed, and the `x-ratelimit-remaining-minute` header of the i-th
call is `19 - i`: it strictly decreases from 19 on the first call down to
0 on the 20th.  (`Date.now()` timestamps are positive; at the unreachable
timestamp 0 the start-of-window sentinel value `0` would keep resetting
the window.) -/
theorem c1_first_twenty_allowed (t0 : Int) (rest : List Int)
    (hpos : 0 < t0)
    (hwin : ∀ t ∈ rest, t0 ≤ t ∧ t - t0 < 60000)
    (hlen : (t0 :: rest).length ≤ 20) :
    ∀ i, i < (t0 :: rest).length →
      (((consumeSeq (t0 :: rest) initialRateLimiterState).1.getD i default).isAllowed = true ∧
       ((consumeSeq (t0 :: rest) initialRateLimiterState).1.getD i default).headers.remainingMinute
         = 19 - (i : Int)) := by
  intro i hi
  obtain ⟨ha0, hr0, hws, hmc, hmo⟩ := consume_initial t0
  match i with
  | 0 =>
    simp only [consumeSeq, List.getD_cons_zero]
    exact ⟨ha0, by rw [hr0]; norm_num⟩
  | Nat.succ j =>
    simp only [consumeSeq, List.getD_cons_succ]
    have := consumeSeq_allowed rest (consumeRateLimit t0 initialRateLimiterState).2
      (by rw [hws]; omega)
      (by intro u hu; rw [hws]; exact (hwin u hu).2)
      (by rw [hmc]; simp at hlen; omega)
      (by rw [hmo]; simp at hlen; omega)
      j (by simpa using hi)
    refine ⟨this.1, ?_⟩
    rw [this.2, hmc]
    push_cast
    ring

/-- C1 witness: three calls at 1000, 1500, 2000 from the fresh state; the
third call is allowed with remaining-minute 17. -/
theorem c1_witness :
    (((consumeSeq ((1000 : Int) :: [1500, 2000]) initialRateLimiterState).1.getD 2 default).isAllowed = true ∧
     ((consumeSeq ((1000 : Int) :: [1500, 2000]) initialRateLimiterState).1.getD 2 default).headers.remainingMinute
       = 19 - ((2 : Nat) : Int)) :=
  c1_first_twenty_allowed 1000 [1500, 2000] (by decide) (by decide) (by decide) 2 (by decide)

/-- C2 (amended): a `consume()` in a live minute window whose resolved
minute count has reached the cap is denied with reason `"minute"` and
`retryAfterSeconds ≥ 1`; but the two limiter modules use different
formulas.  The in-memory limiter returns
`max(1, floor((windowStart + 60000)/1000) − floor(now/1000))`; the
KV-backed limiter returns `max(1, ceil((windowStart + 60000 − now)/1000))`
as the claim states. -/
theorem c2_amended (now : Int) (s : RateLimiterState)
    (hw : s.minuteWindowStart ≠ 0)
    (h2 : now - s.minuteWindowStart < 60000)
    (hc : 20 ≤ s.minuteCount)
    (c : Nat) (w : Int) (mo : Option Nat)
    (hkv2 : now - w < 60000) (hkvc : 20 ≤ c) :
    ((consumeRateLimit now s).1.reasonOf = some DenyReason.minute ∧
     (consumeRateLimit now s).1.retrySeconds
       = some (max 1 ((s.minuteWindowStart + 60000).fdiv 1000 - now.fdiv 1000)) ∧
     1 ≤ max 1 ((s.minuteWindowStart + 60000).fdiv 1000 - now.fdiv 1000)) ∧
    ((RateLimiterKV.consumeRateLimit now (some ⟨c, w⟩) mo).1.reasonOf
       = some DenyReason.minute ∧
     (RateLimiterKV.consumeRateLimit now (some ⟨c, w⟩) mo).1.retrySeconds
       = some (max 1 (jsCeilDiv (w + 60000 - now) 1000)) ∧
     1 ≤ max 1 (jsCeilDiv (w + 60000 - now) 1000)) := by
  have hmin : ensureMinuteWindow now s = s := by
    unfold ensureMinuteWindow MINUTE_WINDOW_MS
    rw [if_neg]
    rintro (h | h)
    · exact hw h
    · omega
  constructor
  · unfold consumeRateLimit
    rw [hmin]
    unfold ensureMonthWindow
    by_cases hkey : s.monthKey ≠ getMonthKey now
    · rw [if_pos hkey, if_pos (by simpa [MAX_PER_MINUTE] using hc)]
      exact ⟨rfl, by simp [RateLimitResult.retrySeconds, minuteResetEpochSeconds, MINUTE_WINDOW_MS], le_max_left _ _⟩
    · rw [if_neg hkey, if_pos (by simpa [MAX_PER_MINUTE] using hc)]
      exact ⟨rfl, by simp [RateLimitResult.retrySeconds, minuteResetEpochSeconds, MINUTE_WINDOW_MS], le_max_left _ _⟩
  · unfold RateLimiterKV.consumeRateLimit
    have hexp : decide (now - w ≥ MINUTE_WINDOW_MS) = false := by
      simp [MINUTE_WINDOW_MS]; omega
    simp only [hexp]
    rw [if_pos (by simpa [MAX_PER_MINUTE] using hkvc)]
    exact ⟨rfl, by simp [RateLimitResult.retrySeconds, MINUTE_WINDOW_MS], le_max_left _ _⟩

/-- C2 counterexample: window started at 42 ms and a denial at 59000 ms —
the in-memory limiter answers `retryAfterSeconds = 1`, but the claim's
formula `max(1, ceil((windowStart + 60000 − now)/1000))` gives 2. -/
theorem c2_counterexample :
    (consumeRateLimit 59000 ⟨42, 20, "1970-0", 0⟩).1.reasonOf = some DenyReason.minute ∧
    (consumeRateLimit 59000 ⟨42, 20, "1970-0", 0⟩).1.retrySeconds = some 1 ∧
    max 1 (jsCeilDiv ((42 : Int) + 60000 - 59000) 1000) = 2 := by decide

/-- C2 witness: a full minute window at count 20 with `now = 30000` and
`windowStart = 1000`, for both limiter modules. -/
theorem c2_witness :
    ((consumeRateLimit 30000 ⟨1000, 20, "1970-0", 3⟩).1.reasonOf = some DenyReason.minute ∧
     (consumeRateLimit 30000 ⟨1000, 20, "1970-0", 3⟩).1.retrySeconds
       = some (max 1 (((1000 : Int) + 60000).fdiv 1000 - (30000 : Int).fdiv 1000)) ∧
     1 ≤ max 1 (((1000 : Int) + 60000).fdiv 1000 - (30000 : Int).fdiv 1000)) ∧
    ((RateLimiterKV.consumeRateLimit 30000 (some ⟨20, 1000⟩) (some 3)).1.reasonOf
       = some DenyReason.minute ∧
     (RateLimiterKV.consumeRateLimit 30000 (some ⟨20, 1000⟩) (some 3)).1.retrySeconds
       = some (max 1 (jsCeilDiv ((1000 : Int) + 60000 - 30000) 1000)) ∧
     1 ≤ max 1 (jsCeilDiv ((1000 : Int) + 60000 - 30000) 1000)) :=
  c2_amended 30000 ⟨1000, 20, "1970-0", 3⟩ (by decide) (by decide) (by decide)
    20 1000 (some 3) (by decide) (by decide)

/-- `ensureMinuteWindow` is idempotent at a fixed timestamp. -/
theorem ensureMinuteWindow_idem (now : Int) (s : RateLimiterState) :
    ensureMinuteWindow now (ensureMinuteWindow now s) = ensureMinuteWindow now s := by
  unfold ensureMinuteWindow
  by_cases h : s.minuteWindowStart = 0 ∨ now - s.minuteWindowStart ≥ MINUTE_WINDOW_MS
  · rw [if_pos h]
    split
    · rfl
    · rfl
  · rw [if_neg h, if_neg h]

/-- `ensureMonthWindow` is idempotent at a fixed timestamp. -/
theorem ensureMonthWindow_idem (now : Int) (s : RateLimiterState) :
    ensureMonthWindow now (ensureMonthWindow now s) = ensureMonthWindow now s := by
  unfold ensureMonthWindow
  by_cases h : s.monthKey ≠ getMonthKey now
  · rw [if_pos h, if_neg (by simp)]
  · rw [if_neg h, if_neg h]

/-- The two window-resolution steps act on disjoint state fields, so they
commute. -/
theorem ensure_comm (now : Int) (s : RateLimiterState) :
    ensureMinuteWindow now (ensureMonthWindow now s)
      = ensureMonthWindow now (ensureMinuteWindow now s) := by
  unfold ensureMinuteWindow ensureMonthWindow
  by_cases h1 : s.monthKey ≠ getMonthKey now <;>
    by_cases h2 : s.minuteWindowStart = 0 ∨ now - s.minuteWindowStart ≥ MINUTE_WINDOW_MS <;>
    simp [h1, h2]

/-- Window resolution (the shared preamble of `consumeRateLimit` and
`rateLimitSnapshotHeaders`) is idempotent at a fixed timestamp. -/
theorem resolve_idem (now : Int) (s : RateLimiterState) :
    ensureMonthWindow now (ensureMinuteWindow now
      (ensureMonthWindow now (ensureMinuteWindow now s)))
    = ensureMonthWindow now (ensureMinuteWindow now s) := by
  rw [ensure_comm now (ensureMinuteWindow now s), ensureMinuteWindow_idem,
    ensureMonthWindow_idem]

/-- C9 (amended): `rateLimitSnapshotHeaders` never increments the
counters, but it does run the window-resolution steps against the stored
module state, which can rewrite the records (install a window on first
use, roll an expired window forward, roll the month key).  When the stored
windows are already current it leaves the state untouched, and a
`consume()` issued at the same timestamp after a snapshot returns exactly
the same result and final state as without the intervening snapshot. -/
theorem c9_amended (now : Int) (s : RateLimiterState) :
    (s.minuteWindowStart ≠ 0 → now - s.minuteWindowStart < 60000 →
      s.monthKey = getMonthKey now → (rateLimitSnapshotHeaders now s).2 = s) ∧
    consumeRateLimit now (rateLimitSnapshotHeaders now s).2 = consumeRateLimit now s := by
  constructor
  · intro h1 h2 h3
    show ensureMonthWindow now (ensureMinuteWindow now s) = s
    have hmin : ensureMinuteWindow now s = s := by
      unfold ensureMinuteWindow MINUTE_WINDOW_MS
      rw [if_neg]
      rintro (h | h)
      · exact h1 h
      · omega
    rw [hmin]
    unfold ensureMonthWindow
    rw [if_neg (by simp [h3])]
  · have hst : (rateLimitSnapshotHeaders now s).2
        = ensureMonthWindow now (ensureMinuteWindow now s) := rfl
    rw [hst]
    unfold consumeRateLimit
    rw [resolve_idem]

/-- C9 counterexample: on the state with an expired window
(`windowStart = 5`, `count = 3`) a snapshot at 70000 ms rewrites the
stored state, and a `consume()` at 71500 ms afterwards returns a different
result (a different `reset-minute` header) than without the snapshot. -/
theorem c9_counterexample :
    (rateLimitSnapshotHeaders 70000 ⟨5, 3, "1970-0", 3⟩).2 ≠ ⟨5, 3, "1970-0", 3⟩ ∧
    (consumeRateLimit 71500 (rateLimitSnapshotHeaders 70000 ⟨5, 3, "1970-0", 3⟩).2).1
      ≠ (consumeRateLimit 71500 ⟨5, 3, "1970-0", 3⟩).1 := by decide

/-- C9 witness: on a state with current windows at 1000 ms the snapshot
leaves the state untouched and commutes with a same-instant consume. -/
theorem c9_witness :
    (rateLimitSnapshotHeaders 1000 ⟨500, 3, "1970-0", 7⟩).2 = ⟨500, 3, "1970-0", 7⟩ ∧
    consumeRateLimit 1000 (rateLimitSnapshotHeaders 1000 ⟨500, 3, "1970-0", 7⟩).2
      = consumeRateLimit 1000 ⟨500, 3, "1970-0", 7⟩ :=
  ⟨(c9_amended 1000 ⟨500, 3, "1970-0", 7⟩).1 (by decide) (by decide) (by decide),
   (c9_amended 1000 ⟨500, 3, "1970-0", 7⟩).2⟩

/-- C3: the limiter state a request leaves behind is exactly
`consumeRateLimit`'s post-state, whatever the cache contents and upstream
outcome (cache hit, miss with success, or upstream failure); and relative
to the resolved (window-adjusted) counters, an allowing `consume()`
increments the minute and month counters each by exactly one while a
denying `consume()` leaves them exactly as resolved (no mutation on the
deny branches). -/
theorem c3_quota_once (tq tc tst : Int) (up : UpstreamResponse)
    (rl : RateLimiterState) (c : IndicesCache) :
    (indicesGET tq tc tst up rl c).2.1 = (consumeRateLimit tq rl).2 ∧
    (if (consumeRateLimit tq rl).1.isAllowed then
       (consumeRateLimit tq rl).2.minuteCount
         = (ensureMonthWindow tq (ensureMinuteWindow tq rl)).minuteCount + 1 ∧
       (consumeRateLimit tq rl).2.monthCount
         = (ensureMonthWindow tq (ensureMinuteWindow tq rl)).monthCount + 1
     else (consumeRateLimit tq rl).2 = ensureMonthWindow tq (ensureMinuteWindow tq rl)) := by
  constructor
  · rcases hq : consumeRateLimit tq rl with ⟨q, rl2⟩
    cases q with
    | denied h r ra => simp [indicesGET, hq]
    | allowed h mr mor =>
      simp only [indicesGET, hq]
      cases hotCacheRead c tc with
      | some d => rfl
      | none =>
        by_cases hok : up.ok <;> simp [hok]
  · unfold consumeRateLimit
    by_cases h1 : (ensureMonthWindow tq (ensureMinuteWindow tq rl)).minuteCount ≥ MAX_PER_MINUTE
    · rw [if_pos h1]
      simp [RateLimitResult.isAllowed]
    · rw [if_neg h1]
      by_cases h2 : (ensureMonthWindow tq (ensureMinuteWindow tq rl)).monthCount ≥ MAX_PER_MONTH
      · rw [if_pos h2]
        simp [RateLimitResult.isAllowed]
      · rw [if_neg h2]
        simp [RateLimitResult.isAllowed]

/-- C8: in a live minute window with the month cap reached, a call that
also finds the minute cap reached is reported as a minute violation
(priority rule); a call with minute capacity remaining is denied with
reason `"month"` and no `retryAfterSeconds`, and the route's 429 response
for it carries no `retry-after` header. -/
theorem c8_priority :
    (∀ (now : Int) (s : RateLimiterState),
       s.minuteWindowStart ≠ 0 → now - s.minuteWindowStart < 60000 →
       20 ≤ s.minuteCount → s.monthKey = getMonthKey now → 500 ≤ s.monthCount →
       (consumeRateLimit now s).1.reasonOf = some DenyReason.minute) ∧
    (∀ (now tc tst : Int) (up : UpstreamResponse) (s : RateLimiterState)
       (c : IndicesCache),
       s.minuteWindowStart ≠ 0 → now - s.minuteWindowStart < 60000 →
       s.minuteCount < 20 → s.monthKey = getMonthKey now → 500 ≤ s.monthCount →
       (consumeRateLimit now s).1.reasonOf = some DenyReason.month ∧
       (consumeRateLimit now s).1.retrySeconds = none ∧
       (indicesGET now tc tst up s c).1.status = 429 ∧
       (indicesGET now tc tst up s c).1.retryAfter = none) := by
  have hresolve : ∀ (now : Int) (s : RateLimiterState),
      s.minuteWindowStart ≠ 0 → now - s.minuteWindowStart < 60000 →
      s.monthKey = getMonthKey now →
      ensureMonthWindow now (ensureMinuteWindow now s) = s := by
    intro now s h1 h2 h3
    have hmin : ensureMinuteWindow now s = s := by
      unfold ensureMinuteWindow MINUTE_WINDOW_MS
      rw [if_neg]
      rintro (h | h)
      · exact h1 h
      · omega
    rw [hmin]
    unfold ensureMonthWindow
    rw [if_neg (by simp [h3])]
  constructor
  · intro now s h1 h2 hc hkey hm
    unfold consumeRateLimit
    rw [hresolve now s h1 h2 hkey, if_pos (by simpa [MAX_PER_MINUTE] using hc)]
    rfl
  · intro now tc tst up s c h1 h2 hc hkey hm
    have hden : consumeRateLimit now s
        = (.denied (buildHeaders now s.minuteWindowStart s.minuteCount s.monthCount)
            DenyReason.month none, s) := by
      unfold consumeRateLimit
      rw [hresolve now s h1 h2 hkey, if_neg (by simp [MAX_PER_MINUTE]; omega),
        if_pos (by simpa [MAX_PER_MONTH] using hm)]
    refine ⟨by rw [hden]; rfl, by rw [hden]; rfl, ?_, ?_⟩
    · simp [indicesGET, hden]
    · simp [indicesGET, hden, jsTruthyRetry]

/-- C8 witness: both caps reached at count 20/600 gives a minute denial;
month-only (count 5/500) gives a month denial with no retry-after on the
429 response. -/
theorem c8_witness :
    (consumeRateLimit 1000 ⟨500, 20, "1970-0", 600⟩).1.reasonOf = some DenyReason.minute ∧
    ((consumeRateLimit 1000 ⟨500, 5, "1970-0", 500⟩).1.reasonOf = some DenyReason.month ∧
     (consumeRateLimit 1000 ⟨500, 5, "1970-0", 500⟩).1.retrySeconds = none ∧
     (indicesGET 1000 1000 1000 ⟨200, JsData.value true 7⟩ ⟨500, 5, "1970-0", 500⟩
        initialIndicesCache).1.status = 429 ∧
     (indicesGET 1000 1000 1000 ⟨200, JsData.value true 7⟩ ⟨500, 5, "1970-0", 500⟩
        initialIndicesCache).1.retryAfter = none) :=
  ⟨c8_priority.1 1000 ⟨500, 20, "1970-0", 600⟩ (by decide) (by decide) (by decide)
     (by decide) (by decide),
   c8_priority.2 1000 1000 1000 ⟨200, JsData.value true 7⟩ ⟨500, 5, "1970-0", 500⟩
     initialIndicesCache (by decide) (by decide) (by decide) (by decide) (by decide)⟩

/-- C5 (amended): in the keyed cache, `get` after `put` within the
60,000 ms TTL returns exactly the stored payload and after the TTL is a
miss with the stale entry still present (ignored, not deleted); in the
singleton cache the same holds only for truthy payloads, because its hit
guard tests the truthiness of the stored payload itself. -/
theorem c5_amended :
    (∀ (pc : PerfCache) (k : String) (d : JsData) (t now : Int),
       now - t < 60000 → perfCacheFresh (perfCachePut pc k d t) k now = some d) ∧
    (∀ (pc : PerfCache) (k : String) (d : JsData) (t now : Int),
       60000 ≤ now - t →
         perfCacheFresh (perfCachePut pc k d t) k now = none ∧
         perfCachePut pc k d t k = some (d, t)) ∧
    (∀ (d : JsData) (t now : Int), d.toBool = true → now - t < 60000 →
       hotCacheRead (hotCachePut d t) now = some d) ∧
    (∀ (d : JsData) (t now : Int), 60000 ≤ now - t →
       hotCacheRead (hotCachePut d t) now = none) := by
  refine ⟨?_, ?_, ?_, ?_⟩
  · intro pc k d t now h
    simp [perfCacheFresh, perfCachePut, hotCachePut, h]
  · intro pc k d t now h
    constructor
    · simp [perfCacheFresh, perfCachePut]
      omega
    · simp [perfCachePut]
  · intro d t now hd h
    simp [hotCacheRead, hotCachePut, hd, h]
  · intro d t now h
    simp [hotCacheRead, hotCachePut]
    omega

/-- C5 counterexample: the singleton cache stores a `null` payload at
time 0, yet the read at time 1 — well inside the TTL — is a miss, not the
stored payload. -/
theorem c5_counterexample :
    hotCacheRead (hotCachePut JsData.null 0) 1 ≠ some JsData.null ∧
    ((1 : Int) - 0 < 60000) := by decide

/-- C5 witness: fresh hit, stale miss with the entry still stored, and the
singleton variants, at concrete times. -/
theorem c5_witness :
    perfCacheFresh (perfCachePut emptyPerfCache "k" (JsData.value true 7) 0) "k" 1
      = some (JsData.value true 7) ∧
    (perfCacheFresh (perfCachePut emptyPerfCache "k" (JsData.value true 7) 0) "k" 60000
       = none ∧
     perfCachePut emptyPerfCache "k" (JsData.value true 7) 0 "k"
       = some (JsData.value true 7, 0)) ∧
    hotCacheRead (hotCachePut (JsData.value true 7) 0) 1 = some (JsData.value true 7) ∧
    hotCacheRead (hotCachePut (JsData.value true 7) 0) 60000 = none :=
  ⟨c5_amended.1 emptyPerfCache "k" (JsData.value true 7) 0 1 (by decide),
   c5_amended.2.1 emptyPerfCache "k" (JsData.value true 7) 0 60000 (by decide),
   c5_amended.2.2.1 (JsData.value true 7) 0 1 (by decide) (by decide),
   c5_amended.2.2.2 (JsData.value true 7) 0 60000 (by decide)⟩

/-- C6: on both routes, an allowed request that misses the cache and gets
a non-success upstream status returns that status, the body message
`"Upstream error: <status>"`, the quota headers from the consume step, and
leaves the cache unwritten. -/
theorem c6_upstream_failure
    (tq tc tst : Int) (up : UpstreamResponse) (rl : RateLimiterState)
    (c : IndicesCache) (idv : String) (limq pgq : Option String)
    (kvs : RateLimiterKV.FallbackState) (pc : PerfCache)
    (hok : up.ok = false)
    (hqa : (consumeRateLimit tq rl).1.isAllowed = true)
    (hmiss : hotCacheRead c tc = none)
    (hqa2 : (RateLimiterKV.consumeRateLimitFallback tq kvs).1.isAllowed = true)
    (hmiss2 : perfCacheFresh pc (perfKey idv (limq.getD "50") (pgq.getD "1")) tc = none) :
    (indicesGET tq tc tst up rl c).1
      = { status := up.status,
          body := .message ("Upstream error: " ++ toString up.status),
          headers := some (consumeRateLimit tq rl).1.headers, retryAfter := none } ∧
    (indicesGET tq tc tst up rl c).2.2 = c ∧
    (perfGET (some idv) limq pgq tq tc tst up kvs pc).1
      = { status := up.status,
          body := .message ("Upstream error: " ++ toString up.status),
          headers := some (RateLimiterKV.consumeRateLimitFallback tq kvs).1.headers,
          retryAfter := none } ∧
    (perfGET (some idv) limq pgq tq tc tst up kvs pc).2.2 = pc := by
  rcases hq : consumeRateLimit tq rl with ⟨q, rl2⟩
  cases q with
  | denied h r ra => rw [hq] at hqa; simp [RateLimitResult.isAllowed] at hqa
  | allowed h mr mor =>
    rcases hq2 : RateLimiterKV.consumeRateLimitFallback tq kvs with ⟨q2, kvs2⟩
    cases q2 with
    | denied h2 r2 ra2 => rw [hq2] at hqa2; simp [RateLimitResult.isAllowed] at hqa2
    | allowed h2 mr2 mor2 =>
      refine ⟨?_, ?_, ?_, ?_⟩
      · simp [indicesGET, hq, hmiss, hok, RateLimitResult.headers]
      · simp [indicesGET, hq, hmiss, hok]
      · unfold perfGET
        rw [hq2]
        simp only [hmiss2]
        simp [hok, RateLimitResult.headers]
      · unfold perfGET
        rw [hq2]
        simp only [hmiss2]
        simp [hok]

/-- C6 witness: upstream status 503 against fresh state on both routes. -/
theorem c6_witness :
    (indicesGET 1000 1000 1000 ⟨503, JsData.null⟩ initialRateLimiterState
       initialIndicesCache).1
      = { status := 503, body := .message ("Upstream error: " ++ toString (503 : Nat)),
          headers := some (consumeRateLimit 1000 initialRateLimiterState).1.headers,
          retryAfter := none } ∧
    (indicesGET 1000 1000 1000 ⟨503, JsData.null⟩ initialRateLimiterState
       initialIndicesCache).2.2 = initialIndicesCache ∧
    (perfGET (some "a") none none 1000 1000 1000 ⟨503, JsData.null⟩
       RateLimiterKV.initialFallbackState emptyPerfCache).1
      = { status := 503, body := .message ("Upstream error: " ++ toString (503 : Nat)),
          headers := some (RateLimiterKV.consumeRateLimitFallback 1000
            RateLimiterKV.initialFallbackState).1.headers,
          retryAfter := none } ∧
    (perfGET (some "a") none none 1000 1000 1000 ⟨503, JsData.null⟩
       RateLimiterKV.initialFallbackState emptyPerfCache).2.2 = emptyPerfCache :=
  c6_upstream_failure 1000 1000 1000 ⟨503, JsData.null⟩ initialRateLimiterState
    initialIndicesCache "a" none none RateLimiterKV.initialFallbackState emptyPerfCache
    (by decide) (by decide) (by decide) (by decide) (by rfl)

/-- C10: in the parameterless route's singleton cache a falsy stored
payload (such as `null`) is a miss even within the TTL, so an allowed
request proceeds to the upstream branch; and a fresh hit can only ever
return a truthy payload. -/
theorem c10_falsy_singleton_miss (tq tc tst : Int) (up : UpstreamResponse)
    (rl : RateLimiterState) (c : IndicesCache)
    (hf : c.data.toBool = false)
    (hqa : (consumeRateLimit tq rl).1.isAllowed = true) :
    hotCacheRead c tc = none ∧
    (indicesGET tq tc tst up rl c).1
      = (if up.ok then
           { status := 200, body := .payload up.data,
             headers := some (consumeRateLimit tq rl).1.headers, retryAfter := none }
         else
           { status := up.status,
             body := .message ("Upstream error: " ++ toString up.status),
             headers := some (consumeRateLimit tq rl).1.headers, retryAfter := none }) ∧
    (∀ (c2 : IndicesCache) (now : Int) (d : JsData),
       hotCacheRead c2 now = some d → d.toBool = true) := by
  have hmiss : hotCacheRead c tc = none := by
    simp [hotCacheRead, hf]
  refine ⟨hmiss, ?_, ?_⟩
  · rcases hq : consumeRateLimit tq rl with ⟨q, rl2⟩
    cases q with
    | denied h r ra => rw [hq] at hqa; simp [RateLimitResult.isAllowed] at hqa
    | allowed h mr mor =>
      by_cases hok : up.ok <;>
        simp [indicesGET, hq, hmiss, hok, RateLimitResult.headers]
  · intro c2 now d h
    unfold hotCacheRead at h
    split at h
    · rename_i hcond
      cases h
      exact hcond.1
    · cases h

/-- C10 witness: a `null` payload stored at 999 ms is a miss at 1000 ms
and the request takes the upstream branch. -/
theorem c10_witness :
    hotCacheRead ⟨JsData.null, 999⟩ 1000 = none ∧
    (indicesGET 1000 1000 1000 ⟨200, JsData.value true 5⟩ initialRateLimiterState
       ⟨JsData.null, 999⟩).1
      = (if (⟨200, JsData.value true 5⟩ : UpstreamResponse).ok then
           { status := 200, body := .payload (JsData.value true 5),
             headers := some (consumeRateLimit 1000 initialRateLimiterState).1.headers,
             retryAfter := none }
         else
           { status := 200,
             body := .message ("Upstream error: " ++ toString (200 : Nat)),
             headers := some (consumeRateLimit 1000 initialRateLimiterState).1.headers,
             retryAfter := none }) ∧
    (∀ (c2 : IndicesCache) (now : Int) (d : JsData),
       hotCacheRead c2 now = some d → d.toBool = true) :=
  c10_falsy_singleton_miss 1000 1000 1000 ⟨200, JsData.value true 5⟩
    initialRateLimiterState ⟨JsData.null, 999⟩ (by decide) (by decide)

/-- Splitting two lists at a separator character that occurs in neither
prefix: the prefixes and the suffixes must agree. -/
theorem split_at_colon (xs : List Char) : ∀ (ys a b : List Char),
    Char.ofNat 58 ∉ xs → Char.ofNat 58 ∉ ys →
    xs ++ Char.ofNat 58 :: a = ys ++ Char.ofNat 58 :: b → xs = ys ∧ a = b := by
  induction xs with
  | nil =>
    intro ys a b _ hy h
    cases ys with
    | nil => simpa using h
    | cons y ys =>
      simp only [List.nil_append, List.cons_append, List.cons.injEq] at h
      exact absurd (h.1 ▸ List.mem_cons_self y ys) hy
  | cons x xs ih =>
    intro ys a b hx hy h
    cases ys with
    | nil =>
      simp only [List.nil_append, List.cons_append, List.cons.injEq] at h
      exact absurd (h.1 ▸ List.mem_cons_self x xs) hx
    | cons y ys =>
      simp only [List.cons_append, List.cons.injEq] at h
      have := ih ys a b (fun hm => hx (List.mem_cons_of_mem x hm))
        (fun hm => hy (List.mem_cons_of_mem y hm)) h.2
      exact ⟨by rw [h.1, this.1], this.2⟩

/-- C7 (amended): the keyed-cache key is the deterministic concatenation
`id:<id>:limit:<limit>:page:<page>`, and the mapping is injective on
parameter triples whose `id` and `limit` values contain no `:` character
(arbitrary values may collide, see the counterexample); distinct keys
never observe or overwrite each other's entry. -/
theorem c7_key_amended :
    (∀ id limit page : String,
       perfKey id limit page = "id:" ++ id ++ ":limit:" ++ limit ++ ":page:" ++ page) ∧
    (∀ id1 limit1 page1 id2 limit2 page2 : String,
       noColon id1 → noColon limit1 → noColon id2 → noColon limit2 →
       perfKey id1 limit1 page1 = perfKey id2 limit2 page2 →
       id1 = id2 ∧ limit1 = limit2 ∧ page1 = page2) ∧
    (∀ (pc : PerfCache) (k1 k2 : String) (d : JsData) (t : Int),
       k1 ≠ k2 → perfCachePut pc k1 d t k2 = pc k2) := by
  refine ⟨fun id limit page => rfl, ?_, ?_⟩
  · intro id1 l1 p1 id2 l2 p2 h1 h2 h3 h4 heq
    have hd := congrArg String.data heq
    simp only [perfKey, String.data_append, List.append_assoc, List.cons_append,
      List.nil_append, List.cons.injEq, true_and] at hd
    have hsplit1 := split_at_colon id1.data id2.data _ _ h1 h3 hd
    have hd2 := hsplit1.2
    simp only [List.cons.injEq, true_and] at hd2
    have hsplit2 := split_at_colon l1.data l2.data _ _ h2 h4 hd2
    have hd3 := hsplit2.2
    simp only [List.cons.injEq, true_and] at hd3
    exact ⟨String.ext hsplit1.1, String.ext hsplit2.1, String.ext hd3⟩
  · intro pc k1 k2 d t hne
    unfold perfCachePut
    rw [if_neg (fun h => hne h.symm)]

/-- C7 counterexample: two different parameter triples — colons inside the
`id` and `limit` values — produce the same cache key. -/
theorem c7_counterexample :
    perfKey "x:limit:1" "2" "3" = perfKey "x" "1:limit:2" "3" ∧
    (("x:limit:1", "2", "3") : String × String × String) ≠ ("x", "1:limit:2", "3") := by
  constructor
  · rfl
  · decide

/-- C7 witness: colon-free parameters at concrete values. -/
theorem c7_witness :
    (perfKey "a" "50" "1" = "id:" ++ "a" ++ ":limit:" ++ "50" ++ ":page:" ++ "1") ∧
    (perfKey "a" "50" "1" = perfKey "a" "50" "1" →
      ("a" : String) = "a" ∧ ("50" : String) = "50" ∧ ("1" : String) = "1") ∧
    perfCachePut emptyPerfCache "k1" JsData.null 0 "k2" = emptyPerfCache "k2" :=
  ⟨c7_key_amended.1 "a" "50" "1",
   c7_key_amended.2.1 "a" "50" "1" "a" "50" "1" (by decide) (by decide) (by decide)
     (by decide),
   c7_key_amended.2.2 emptyPerfCache "k1" "k2" JsData.null 0 (by decide)⟩

/-- A `/api/indices-performance` request reads and writes only the KV
limiter's state and the keyed cache, so its result is unchanged by any
difference in the other modules' state. -/
theorem worldPerfGET_frame (idq limq pgq : Option String) (tq tc tst : Int)
    (up : UpstreamResponse) (w w2 : GateWorld)
    (hkv : w.kv = w2.kv) (hperf : w.perf = w2.perf) :
    (worldPerfGET idq limq pgq tq tc tst up w).1
      = (worldPerfGET idq limq pgq tq tc tst up w2).1 := by
  unfold worldPerfGET
  rw [hkv, hperf]

/-- A `/api/indices` request reads and writes only the in-memory limiter's
state and the singleton cache. -/
theorem worldIndicesGET_frame (tq tc tst : Int) (up : UpstreamResponse)
    (w w2 : GateWorld) (hmem : w.mem = w2.mem) (hhot : w.hot = w2.hot) :
    (worldIndicesGET tq tc tst up w).1 = (worldIndicesGET tq tc tst up w2).1 := by
  unfold worldIndicesGET
  rw [hmem, hhot]

/-- C4 (amended): the two upstream-backed routes do not share counter
state — `/api/indices` consumes from `rateLimiter.ts`'s module variables
while `/api/indices-performance` consumes from `rateLimiterKV.ts`'s — so a
request on either route leaves the other route's limiter state and cache
untouched, and the result either route returns is identical with or
without an intervening request on the other route. -/
theorem c4_amended (idq limq pgq : Option String)
    (tq1 tc1 tst1 tq2 tc2 tst2 : Int) (up1 up2 : UpstreamResponse) (w : GateWorld) :
    ((worldIndicesGET tq1 tc1 tst1 up1 w).2.kv = w.kv ∧
     (worldIndicesGET tq1 tc1 tst1 up1 w).2.perf = w.perf) ∧
    ((worldPerfGET idq limq pgq tq2 tc2 tst2 up2 w).2.mem = w.mem ∧
     (worldPerfGET idq limq pgq tq2 tc2 tst2 up2 w).2.hot = w.hot) ∧
    (worldPerfGET idq limq pgq tq2 tc2 tst2 up2
       (worldIndicesGET tq1 tc1 tst1 up1 w).2).1
      = (worldPerfGET idq limq pgq tq2 tc2 tst2 up2 w).1 ∧
    (worldIndicesGET tq1 tc1 tst1 up1
       (worldPerfGET idq limq pgq tq2 tc2 tst2 up2 w).2).1
      = (worldIndicesGET tq1 tc1 tst1 up1 w).1 := by
  have hi : (worldIndicesGET tq1 tc1 tst1 up1 w).2.kv = w.kv ∧
      (worldIndicesGET tq1 tc1 tst1 up1 w).2.perf = w.perf := ⟨rfl, rfl⟩
  have hp : (worldPerfGET idq limq pgq tq2 tc2 tst2 up2 w).2.mem = w.mem ∧
      (worldPerfGET idq limq pgq tq2 tc2 tst2 up2 w).2.hot = w.hot := ⟨rfl, rfl⟩
  exact ⟨hi, hp,
    worldPerfGET_frame idq limq pgq tq2 tc2 tst2 up2 _ w hi.1 hi.2,
    worldIndicesGET_frame tq1 tc1 tst1 up1 _ w hp.1 hp.2⟩

/-- C4 counterexample: from the fresh process state, an allowed (200)
request on `/api/indices` does not decrease the quota observed by a
subsequent `/api/indices-performance` request — that request returns
exactly what it would have returned without the first one, with a
remaining-minute header still showing the full cap of 20. -/
theorem c4_counterexample :
    (worldIndicesGET 1000 1000 1000 ⟨200, JsData.value true 7⟩
       initialGateWorld).1.status = 200 ∧
    (worldPerfGET (some "a") none none 2000 2000 2000 ⟨200, JsData.value true 8⟩
       (worldIndicesGET 1000 1000 1000 ⟨200, JsData.value true 7⟩ initialGateWorld).2).1
      = (worldPerfGET (some "a") none none 2000 2000 2000 ⟨200, JsData.value true 8⟩
           initialGateWorld).1 ∧
    ((worldPerfGET (some "a") none none 2000 2000 2000 ⟨200, JsData.value true 8⟩
        initialGateWorld).1.headers).map QuotaHeaders.remainingMinute = some 20 := by
  refine ⟨rfl, ?_, ?_⟩
  · rfl
  · rfl
